import Mathlib

/-!
Verification of the OneStopRadio mock C++ media server backend
(`mock_cpp_server.py`, serving on port 8080, and
`start_mock_server_8082.py`, serving on port 8082).

The two Python files each define a module-level `server_state` dict and a
`BaseHTTPRequestHandler` subclass whose `do_GET`/`do_POST` methods route on
the request path, mutate the shared state, and send a JSON response.  We
embed the state dict as a Lean structure over `ℚ` (the float arithmetic in
the source is only `max`/`min`/`*`/`-` on decimal literals, which `ℚ`
models exactly; IEEE special values such as `inf`/`nan` are outside the
model), JSON response bodies as an inductive `Json` type, and each handler
as a pure function from (path, parsed body, time/random environment, state)
to (new state, optional response).  A `none` response models an exception
escaping the handler (in Python the connection is dropped with no JSON
response); exceptions caught by the source's `try/except` blocks are
modelled exactly where the source catches them.
-/

namespace OneStopRadio

/-- JSON values, as produced by `json.dumps` of the Python response dicts. -/
inductive Json where
  | num (q : ℚ)
  | str (s : String)
  | boolv (b : Bool)
  | null
  | arr (xs : List Json)
  | obj (fs : List (String × Json))

/-- Python values that can occur in a parsed JSON request body (and in the
`loaded_track` field, which stores whatever the body supplied).  Lists and
nested objects in bodies are never read by any handler field access the
claims exercise, so they are not modelled. -/
inductive PyVal where
  | num (q : ℚ)
  | str (s : String)
  | boolv (b : Bool)
  | null
deriving DecidableEq

/-- Association-list lookup on string keys (Python `dict` access). -/
def lookupStr {α : Type} (k : String) : List (String × α) → Option α
  | [] => none
  | (k', v) :: rest => if k' = k then some v else lookupStr k rest

/-- Python `body.get(k, d)`. -/
def dictGet (body : List (String × PyVal)) (k : String) (d : PyVal) : PyVal :=
  (lookupStr k body).getD d

/-- Field lookup in a JSON object. -/
def jLookup (k : String) : Json → Option Json
  | .obj fs => lookupStr k fs
  | _ => none

/-- Python `max(0.0, min(1.0, v))`. -/
def clamp01 (v : ℚ) : ℚ := max 0 (min 1 v)

/-- Python `max(0.0, min(100.0, v))`. -/
def clamp100 (v : ℚ) : ℚ := max 0 (min 100 v)

/-- The characters Python `int()`/`float()` strip from a `str` argument,
restricted to ISO-8859-1 (the encoding `http.server` uses for the request
line, so no character outside it can reach these calls from a path or
body string): space, tab, LF, VT, FF, CR, NEL (U+0085) and NBSP
(U+00A0). -/
def pyWhitespace (c : Char) : Bool :=
  c = ' ' || c = '\t' || c = '\n' || c = '\x0b' || c = '\x0c' || c = '\r' ||
  c = '\x85' || c = '\xa0'

/-- Strip leading and trailing Python whitespace. -/
def pyStrip (cs : List Char) : List Char :=
  ((cs.dropWhile (fun c => pyWhitespace c)).reverse.dropWhile
    (fun c => pyWhitespace c)).reverse

/-- Consume a leading PEP 515 digit run: decimal digits with single
underscores strictly between digits.  Returns the value, the number of
digits consumed, and the rest of the input; `none` models the
`ValueError` Python raises when an underscore is not surrounded by
digits (leading, trailing or doubled underscore).  Only ASCII digits
occur: ISO-8859-1 has no other characters of Unicode category Nd. -/
def takeGrouped : List Char → Nat → Nat → Option (Nat × Nat × List Char)
  | [], acc, cnt => some (acc, cnt, [])
  | '_' :: rest, acc, cnt =>
      if cnt = 0 then none
      else
        match rest with
        | c :: cs =>
            if c.isDigit then takeGrouped cs (acc * 10 + (c.toNat - 48)) (cnt + 1)
            else none
        | [] => none
  | c :: cs, acc, cnt =>
      if c.isDigit then takeGrouped cs (acc * 10 + (c.toNat - 48)) (cnt + 1)
      else some (acc, cnt, c :: cs)

/-- An entire nonempty PEP 515 digit string (the digit part of `int()` and
of a float exponent). -/
def pyDigits? (cs : List Char) : Option Nat :=
  match takeGrouped cs 0 0 with
  | some (v, cnt, []) => if 0 < cnt then some v else none
  | _ => none

/-- Python `int(s)` on a path segment: surrounding whitespace, an optional
sign, then grouped decimal digits; `none` models a `ValueError`. -/
def pyInt? (cs : List Char) : Option Int :=
  match pyStrip cs with
  | '-' :: rest => (pyDigits? rest).map (fun n => -(n : Int))
  | '+' :: rest => (pyDigits? rest).map (fun n => (n : Int))
  | rest => (pyDigits? rest).map (fun n => (n : Int))

/-- The value of a Python float: a finite decimal literal (exact in `ℚ`),
an infinity, or a NaN. -/
inductive PyFloat where
  | finite (q : ℚ)
  | posInf
  | negInf
  | nan
deriving DecidableEq

/-- Negation of a Python float, for a leading `-` sign (`float("-nan")`
is `nan`). -/
def pyNegF : PyFloat → PyFloat
  | .finite q => .finite (-q)
  | .posInf => .negInf
  | .negInf => .posInf
  | .nan => .nan

/-- Apply a decimal exponent to a finite float value. -/
def applyExp (b : ℚ) (e : Int) : ℚ :=
  if 0 ≤ e then b * 10 ^ e.toNat else b / 10 ^ (-e).toNat

/-- The optional exponent of a float literal: `e`/`E`, optional sign,
grouped digits; `none` models a `ValueError`. -/
def parseExp? : List Char → Option Int
  | [] => some 0
  | c :: rest =>
      if c = 'e' ∨ c = 'E' then
        match rest with
        | '-' :: ds => (pyDigits? ds).map (fun n => -(n : Int))
        | '+' :: ds => (pyDigits? ds).map (fun n => (n : Int))
        | ds => (pyDigits? ds).map (fun n => (n : Int))
      else none

/-- An unsigned finite float literal: grouped digit runs around an
optional point (at least one digit overall), then an optional exponent.
Underscores adjacent to the point or the exponent marker fail, as in
Python. -/
def parseUFinite? (cs : List Char) : Option ℚ :=
  match takeGrouped cs 0 0 with
  | none => none
  | some (ip, ic, rest) =>
      match rest with
      | '.' :: rest2 =>
          match takeGrouped rest2 0 0 with
          | none => none
          | some (fp, fc, rest3) =>
              if ic = 0 ∧ fc = 0 then none
              else
                (parseExp? rest3).map
                  (fun e => applyExp ((ip : ℚ) + (fp : ℚ) / (10 : ℚ) ^ fc) e)
      | _ =>
          if ic = 0 then none
          else (parseExp? rest).map (fun e => applyExp (ip : ℚ) e)

/-- An unsigned float literal: `inf`, `infinity` or `nan` in any case, or
a finite literal. -/
def parseUFloat? (cs : List Char) : Option PyFloat :=
  if cs.map Char.toLower = "inf".data ∨ cs.map Char.toLower = "infinity".data
  then some .posInf
  else if cs.map Char.toLower = "nan".data then some .nan
  else (parseUFinite? cs).map PyFloat.finite

/-- Python `float(s)` for a string: strip whitespace, optional sign, then
an unsigned float literal; `none` models a `ValueError`. -/
def pyFloatOfString? (s : String) : Option PyFloat :=
  match pyStrip s.data with
  | '-' :: rest => (parseUFloat? rest).map pyNegF
  | '+' :: rest => parseUFloat? rest
  | rest => parseUFloat? rest

/-- Outcome of Python `float(v)` on a JSON body value. -/
inductive FloatRes where
  | ok (f : PyFloat)
  | valErr
  | typeErr
deriving DecidableEq

/-- Python `float(v)`: numbers pass through (JSON numbers from
`json.loads` are finite decimals), booleans become 0/1, strings are
parsed (`ValueError` on failure), `None` raises `TypeError`. -/
def pyFloat : PyVal → FloatRes
  | .num q => .ok (.finite q)
  | .boolv b => .ok (.finite (if b then 1 else 0))
  | .str s =>
      match pyFloatOfString? s with
      | some f => .ok f
      | none => .valErr
  | .null => .typeErr

/-- Python `max(0.0, min(1.0, v))` on a float value.  `min(1.0, nan)`
is `1.0` because `nan < 1.0` is false, and `min(1.0, inf) = 1.0`,
`max(0.0, -inf) = 0.0`, so the clamped result is always finite. -/
def clampUnit : PyFloat → ℚ
  | .finite q => clamp01 q
  | .posInf => 1
  | .negInf => 0
  | .nan => 1

/-- Python `max(0.0, min(100.0, v))` on a float value, by the same
`min`/`max` semantics. -/
def clampHundred : PyFloat → ℚ
  | .finite q => clamp100 q
  | .posInf => 100
  | .negInf => 0
  | .nan => 100

/-- Python `f-string` rendering of a body value (used in `playback_{action}`
and the `loaded_track` echo).  The numeric rendering is a stand-in for
Python float `repr`; no claim evaluates it on a number. -/
def pyStr : PyVal → String
  | .str s => s
  | .boolv true => "True"
  | .boolv false => "False"
  | .null => "None"
  | .num q => toString q

/-- Python `str.split(sep)` for a single-character separator. -/
def splitOnChar (sep : Char) : List Char → List (List Char)
  | [] => [[]]
  | c :: cs =>
      if c = sep then [] :: splitOnChar sep cs
      else
        match splitOnChar sep cs with
        | [] => [[c]]
        | s :: ss => (c :: s) :: ss

/-- Python `int()` truncates toward zero. -/
def pyTrunc (q : ℚ) : Int := if 0 ≤ q then Int.floor q else -Int.floor (-q)

/-- Python `round(x, 1)`: round-half-to-even at one decimal place. -/
def roundHalfEven (q : ℚ) : Int :=
  let f := Int.floor q
  let r := q - f
  if r < 1 / 2 then f
  else if 1 / 2 < r then f + 1
  else if Even f then f else f + 1

/-- Python `round(x, 1)` on rationals. -/
def pyRound1 (q : ℚ) : ℚ := (roundHalfEven (q * 10) : ℚ) / 10

/-- The per-channel `eq` dict (present in the state, never mutated). -/
structure EqState where
  low : ℚ
  mid : ℚ
  high : ℚ
deriving DecidableEq

/-- One entry of `server_state['mixer']['channels']`. -/
structure Channel where
  id : Nat
  volume : ℚ
  loaded_track : PyVal
  is_playing : Bool
  position : ℚ
  eq : EqState
deriving DecidableEq

/-- Embedding of `server_state['mixer']`. -/
structure Mixer where
  crossfader : ℚ
  master_volume : ℚ
  channels : List Channel
deriving DecidableEq

/-- Embedding of `server_state['microphone']`. -/
structure Microphone where
  enabled : Bool
  muted : Bool
  gain : ℚ
  talkover : Bool
deriving DecidableEq

/-- Embedding of `server_state['audio_levels']`. -/
structure AudioLevels where
  master_left : ℚ
  master_right : ℚ
  channel_1_left : ℚ
  channel_1_right : ℚ
  channel_2_left : ℚ
  channel_2_right : ℚ
  microphone : ℚ
deriving DecidableEq

/-- The whole module-level `server_state` dict (identical initialiser in
both files). -/
structure ServerState where
  status : String
  uptime : Int
  start_time : ℚ
  mixer : Mixer
  microphone : Microphone
  audio_levels : AudioLevels
deriving DecidableEq

/-- The initial `server_state`, parametrised by the module-load time
`time.time()`. -/
def server_state (t0 : ℚ) : ServerState :=
  { status := "running"
    uptime := 0
    start_time := t0
    mixer :=
      { crossfader := 1 / 2
        master_volume := 8 / 10
        channels :=
          [ { id := 1, volume := 7 / 10, loaded_track := .null,
              is_playing := false, position := 0,
              eq := { low := 0, mid := 0, high := 0 } },
            { id := 2, volume := 7 / 10, loaded_track := .null,
              is_playing := false, position := 0,
              eq := { low := 0, mid := 0, high := 0 } } ] }
    microphone := { enabled := false, muted := false, gain := 1 / 2, talkover := false }
    audio_levels :=
      { master_left := 0, master_right := 0,
        channel_1_left := 0, channel_1_right := 0,
        channel_2_left := 0, channel_2_right := 0,
        microphone := 0 } }

/-- Per-request environment: wall-clock time, `datetime.now().isoformat()`,
and the values drawn from `random` during this request (`u1`/`u2` are the
channel-1 left/right draws in `[0.3, 0.9]`, `u3`/`u4` channel-2's, `umic`
the microphone draw in `[0.3, 0.8]`, `cpu`/`mem`/`conn` the `/api/stats`
draws). -/
structure GetEnv where
  now : ℚ
  timestamp : String
  u1 : ℚ
  u2 : ℚ
  u3 : ℚ
  u4 : ℚ
  umic : ℚ
  cpu : ℚ
  mem : ℚ
  conn : Nat

/-- A JSON response: HTTP status code and body (what `send_json_response`
serialises). -/
structure Response where
  status_code : Nat
  body : Json

/-- Serialisation of the `eq` dict. -/
def eqJson (e : EqState) : Json :=
  .obj [("low", .num e.low), ("mid", .num e.mid), ("high", .num e.high)]

/-- Serialisation of a body value stored back into the state. -/
def pyValJson : PyVal → Json
  | .num q => .num q
  | .str s => .str s
  | .boolv b => .boolv b
  | .null => .null

/-- Serialisation of one channel dict. -/
def channelJson (c : Channel) : Json :=
  .obj [("id", .num c.id), ("volume", .num c.volume),
        ("loaded_track", pyValJson c.loaded_track),
        ("is_playing", .boolv c.is_playing), ("position", .num c.position),
        ("eq", eqJson c.eq)]

/-- Serialisation of the mixer dict. -/
def mixerJson (m : Mixer) : Json :=
  .obj [("crossfader", .num m.crossfader),
        ("master_volume", .num m.master_volume),
        ("channels", .arr (m.channels.map channelJson))]

/-- Serialisation of the microphone dict. -/
def micJson (m : Microphone) : Json :=
  .obj [("enabled", .boolv m.enabled), ("muted", .boolv m.muted),
        ("gain", .num m.gain), ("talkover", .boolv m.talkover)]

/-- Serialisation of the audio-levels dict. -/
def levelsJson (l : AudioLevels) : Json :=
  .obj [("master_left", .num l.master_left),
        ("master_right", .num l.master_right),
        ("channel_1_left", .num l.channel_1_left),
        ("channel_1_right", .num l.channel_1_right),
        ("channel_2_left", .num l.channel_2_left),
        ("channel_2_right", .num l.channel_2_right),
        ("microphone", .num l.microphone)]

/-- A 400 validation response `{success: false, error: msg}`. -/
def err400 (msg : String) : Response :=
  ⟨400, .obj [("success", .boolv false), ("error", .str msg)]⟩

namespace Mock

/-- Embedding of `MockCppHandler.do_GET` of `mock_cpp_server.py` (lines 69-162).  The
request path is the already-URL-parsed `parsed_path.path` as characters;
`env` supplies the wall clock and this request's random draws.  A `none`
response models an uncaught exception. -/
def do_GET (path : List Char) (env : GetEnv) (st : ServerState) :
    ServerState × Option Response :=
  let st := { st with uptime := pyTrunc (env.now - st.start_time) }
  if path = "/api/health".data then
    (st, some ⟨200, .obj [("status", .str "ok"),
      ("service", .str "C++ Media Server Mock"),
      ("version", .str "1.0.0"),
      ("uptime", .num st.uptime),
      ("timestamp", .str env.timestamp)]⟩)
  else if path = "/api/stats".data then
    (st, some ⟨200, .obj [("success", .boolv true),
      ("stats", .obj [("uptime", .num st.uptime),
        ("cpu_usage", .num (pyRound1 env.cpu)),
        ("memory_usage", .num (pyRound1 env.mem)),
        ("audio_buffer_health", .str "good"),
        ("active_connections", .num env.conn)])]⟩)
  else if path = "/api/mixer/status".data then
    match st.mixer.channels[0]? with
    | none => (st, none)
    | some c0 =>
      let lv1 :=
        if c0.is_playing then
          { st.audio_levels with channel_1_left := env.u1, channel_1_right := env.u2 }
        else
          { st.audio_levels with channel_1_left := 0, channel_1_right := 0 }
      match st.mixer.channels[1]? with
      | none => ({ st with audio_levels := lv1 }, none)
      | some c1 =>
        let lv2 :=
          if c1.is_playing then
            { lv1 with channel_2_left := env.u3, channel_2_right := env.u4 }
          else
            { lv1 with channel_2_left := 0, channel_2_right := 0 }
        let crossfader := st.mixer.crossfader
        let ch1_vol := c0.volume
        let ch2_vol := c1.volume
        let master_vol := st.mixer.master_volume
        let ch1_output := lv2.channel_1_left * ch1_vol * (1 - crossfader) * master_vol
        let ch2_output := lv2.channel_2_left * ch2_vol * crossfader * master_vol
        let lv3 := { lv2 with master_left := max ch1_output ch2_output,
                              master_right := max ch1_output ch2_output }
        let st2 := { st with audio_levels := lv3 }
        (st2, some ⟨200, .obj [("success", .boolv true),
          ("mixer", mixerJson st2.mixer),
          ("audio_levels", levelsJson st2.audio_levels)]⟩)
  else if path = "/api/mixer/microphone/status".data then
    (st, some ⟨200, .obj [("success", .boolv true),
      ("microphone", micJson st.microphone)]⟩)
  else if path = "/api/audio/levels".data then
    (st, some ⟨200, .obj [("success", .boolv true),
      ("levels", levelsJson st.audio_levels)]⟩)
  else
    (st, some ⟨404, .obj [("success", .boolv false),
      ("error", .str "Endpoint not found"),
      ("available_endpoints", .arr
        [.str "GET /api/health - Server health check",
         .str "GET /api/stats - Server statistics",
         .str "GET /api/mixer/status - Mixer status and levels",
         .str "GET /api/mixer/microphone/status - Microphone status",
         .str "GET /api/audio/levels - Real-time audio levels",
         .str "POST /api/mixer/crossfader - Set crossfader position",
         .str "POST /api/mixer/channel/{id}/volume - Set channel volume",
         .str "POST /api/mixer/channel/{id}/load - Load track to channel",
         .str "POST /api/mixer/channel/{id}/playback - Control playback",
         .str "POST /api/mixer/microphone/toggle - Toggle microphone"])]⟩)

/-- The `/volume` branch of `do_POST` (lines 192-217): the whole branch body
sits in a `try` whose `except (ValueError, IndexError)` answers
400 "Invalid channel ID in path" — including the `float(value)` call. -/
def handleChannelVolume (parts : List (List Char))
    (body : List (String × PyVal)) (st : ServerState) :
    ServerState × Option Response :=
  match parts[4]? with
  | none => (st, some (err400 "Invalid channel ID in path"))
  | some seg =>
    match pyInt? seg with
    | none => (st, some (err400 "Invalid channel ID in path"))
    | some n =>
      let channel_id := n - 1
      if 0 ≤ channel_id ∧ channel_id < 2 then
        let value := dictGet body "value" (.num (7 / 10))
        match pyFloat value with
        | .valErr => (st, some (err400 "Invalid channel ID in path"))
        | .typeErr => (st, none)
        | .ok v =>
          match st.mixer.channels[channel_id.toNat]? with
          | none => (st, some (err400 "Invalid channel ID in path"))
          | some ch =>
            let ch' := { ch with volume := clampUnit v }
            let st' := { st with mixer := { st.mixer with
                channels := st.mixer.channels.set channel_id.toNat ch' } }
            (st', some ⟨200, .obj [("success", .boolv true),
              ("action", .str "channel_volume_set"),
              ("channel", .num ((channel_id : ℚ) + 1)),
              ("value", .num ch'.volume)]⟩)
      else
        (st, some (err400 "Invalid channel ID"))

/-- The `/load` branch of `do_POST` (lines 219-245); `now` is `time.time()`
for the default track name. -/
def handleChannelLoad (parts : List (List Char))
    (body : List (String × PyVal)) (now : ℚ) (st : ServerState) :
    ServerState × Option Response :=
  match parts[4]? with
  | none => (st, some (err400 "Invalid channel ID in path"))
  | some seg =>
    match pyInt? seg with
    | none => (st, some (err400 "Invalid channel ID in path"))
    | some n =>
      let channel_id := n - 1
      if 0 ≤ channel_id ∧ channel_id < 2 then
        let track_name :=
          dictGet body "name" (.str ("Track_" ++ toString (pyTrunc now)))
        match st.mixer.channels[channel_id.toNat]? with
        | none => (st, some (err400 "Invalid channel ID in path"))
        | some ch =>
          let ch' := { ch with loaded_track := track_name, position := 0 }
          let st' := { st with mixer := { st.mixer with
              channels := st.mixer.channels.set channel_id.toNat ch' } }
          (st', some ⟨200, .obj [("success", .boolv true),
            ("action", .str "track_loaded"),
            ("channel", .num ((channel_id : ℚ) + 1)),
            ("track", pyValJson track_name)]⟩)
      else
        (st, some (err400 "Invalid channel ID"))

/-- The `/playback` branch of `do_POST` (lines 247-281).  Only the actions
`play`/`pause`/`stop` mutate the channel; any other action falls through to
the response, which echoes `playback_{action}` and the current
`is_playing`. -/
def handleChannelPlayback (parts : List (List Char))
    (body : List (String × PyVal)) (st : ServerState) :
    ServerState × Option Response :=
  match parts[4]? with
  | none => (st, some (err400 "Invalid channel ID in path"))
  | some seg =>
    match pyInt? seg with
    | none => (st, some (err400 "Invalid channel ID in path"))
    | some n =>
      let channel_id := n - 1
      if 0 ≤ channel_id ∧ channel_id < 2 then
        let action := dictGet body "action" (.str "play")
        match st.mixer.channels[channel_id.toNat]? with
        | none => (st, some (err400 "Invalid channel ID in path"))
        | some ch =>
          let ch' :=
            if action = .str "play" then { ch with is_playing := true }
            else if action = .str "pause" then { ch with is_playing := false }
            else if action = .str "stop" then
              { ch with is_playing := false, position := 0 }
            else ch
          let st' := { st with mixer := { st.mixer with
              channels := st.mixer.channels.set channel_id.toNat ch' } }
          (st', some ⟨200, .obj [("success", .boolv true),
            ("action", .str ("playback_" ++ pyStr action)),
            ("channel", .num ((channel_id : ℚ) + 1)),
            ("is_playing", .boolv ch'.is_playing)]⟩)
      else
        (st, some (err400 "Invalid channel ID"))

/-- Embedding of `MockCppHandler.do_POST` of `mock_cpp_server.py` (lines 164-308).
`body` is the parsed JSON body (`{}` when absent or unparseable); `now` is
`time.time()`.  A `none` response models an exception escaping the handler
(e.g. `float()` raising outside any `try`). -/
def do_POST (path : List Char) (body : List (String × PyVal)) (now : ℚ)
    (st : ServerState) : ServerState × Option Response :=
  if path = "/api/mixer/crossfader".data then
    let value := dictGet body "value" (.num (1 / 2))
    match pyFloat value with
    | .ok v =>
      let st' := { st with mixer := { st.mixer with crossfader := clampUnit v } }
      (st', some ⟨200, .obj [("success", .boolv true),
        ("action", .str "crossfader_set"),
        ("value", .num st'.mixer.crossfader)]⟩)
    | _ => (st, none)
  else if List.isPrefixOf "/api/mixer/channel/".data path &&
          List.isSuffixOf "/volume".data path then
    handleChannelVolume (splitOnChar '/' path) body st
  else if List.isPrefixOf "/api/mixer/channel/".data path &&
          List.isSuffixOf "/load".data path then
    handleChannelLoad (splitOnChar '/' path) body now st
  else if List.isPrefixOf "/api/mixer/channel/".data path &&
          List.isSuffixOf "/playback".data path then
    handleChannelPlayback (splitOnChar '/' path) body st
  else if path = "/api/mixer/microphone/toggle".data then
    let st' := { st with microphone :=
        { st.microphone with enabled := !st.microphone.enabled } }
    (st', some ⟨200, .obj [("success", .boolv true),
      ("action", .str "microphone_toggle"),
      ("enabled", .boolv st'.microphone.enabled)]⟩)
  else if path = "/api/mixer/master/volume".data then
    let value := dictGet body "value" (.num (8 / 10))
    match pyFloat value with
    | .ok v =>
      let st' := { st with mixer := { st.mixer with master_volume := clampUnit v } }
      (st', some ⟨200, .obj [("success", .boolv true),
        ("action", .str "master_volume_set"),
        ("value", .num st'.mixer.master_volume)]⟩)
    | _ => (st, none)
  else
    (st, some ⟨404, .obj [("success", .boolv false),
      ("error", .str ("POST endpoint not implemented: " ++ String.mk path))]⟩)

end Mock

namespace Mock8082

/-- Left-channel random draw for loop index `i` in
`simulate_audio_levels` (indices ≥ 2 are unreachable with the 2-channel
state; the source would create new dict keys there, outside the fixed
schema). -/
def uLeft (env : GetEnv) : Nat → ℚ
  | 0 => env.u1
  | 1 => env.u3
  | _ => 0

/-- Right-channel random draw for loop index `i`. -/
def uRight (env : GetEnv) : Nat → ℚ
  | 0 => env.u2
  | 1 => env.u4
  | _ => 0

/-- Write the `channel_{i+1}_left/right` level fields for loop index `i`. -/
def setChanLevels (i : Nat) (l r : ℚ) (lv : AudioLevels) : AudioLevels :=
  match i with
  | 0 => { lv with channel_1_left := l, channel_1_right := r }
  | 1 => { lv with channel_2_left := l, channel_2_right := r }
  | _ => lv

/-- The `for i, channel in enumerate(...)` loop of `simulate_audio_levels`
(lines 188-195). -/
def chanLevelLoop (env : GetEnv) : Nat → List Channel → AudioLevels → AudioLevels
  | _, [], lv => lv
  | i, c :: cs, lv =>
      let lv' :=
        if c.is_playing then setChanLevels i (uLeft env i) (uRight env i) lv
        else setChanLevels i 0 0 lv
      chanLevelLoop env (i + 1) cs lv'

/-- Embedding of `MockCppHandler.simulate_audio_levels` of `start_mock_server_8082.py`
(lines 180-204).  The returned flag is `false` when the master-level
computation would raise an `IndexError` (fewer than 2 channels), with the
state reflecting the writes made before the raise. -/
def simulate_audio_levels (env : GetEnv) (st : ServerState) :
    ServerState × Bool :=
  let lv0 := { st.audio_levels with microphone :=
      if st.microphone.enabled then env.umic * st.microphone.gain else 0 }
  let lv1 := chanLevelLoop env 0 st.mixer.channels lv0
  match st.mixer.channels[0]?, st.mixer.channels[1]? with
  | some c0, some c1 =>
      let ml := max (max (lv1.channel_1_left * c0.volume)
                         (lv1.channel_2_left * c1.volume))
                    lv1.microphone * st.mixer.master_volume
      ({ st with audio_levels :=
          { lv1 with master_left := ml, master_right := ml } }, true)
  | _, _ => ({ st with audio_levels := lv1 }, false)

/-- Embedding of `MockCppHandler.do_GET` of `start_mock_server_8082.py` (lines 69-116). -/
def do_GET (path : List Char) (env : GetEnv) (st : ServerState) :
    ServerState × Option Response :=
  let st := { st with uptime := pyTrunc (env.now - st.start_time) }
  if path = "/api/health".data then
    (st, some ⟨200, .obj [("status", .str "ok"),
      ("service", .str "C++ Media Server Mock"),
      ("version", .str "1.0.0"),
      ("uptime", .num st.uptime),
      ("timestamp", .str env.timestamp)]⟩)
  else if path = "/api/mixer/status".data then
    let r := simulate_audio_levels env st
    if r.2 then
      (r.1, some ⟨200, .obj [("success", .boolv true),
        ("mixer", mixerJson r.1.mixer),
        ("audio_levels", levelsJson r.1.audio_levels)]⟩)
    else
      (r.1, none)
  else if path = "/api/mixer/microphone/status".data then
    (st, some ⟨200, .obj [("success", .boolv true),
      ("microphone", micJson st.microphone)]⟩)
  else
    (st, some ⟨404, .obj [("success", .boolv false),
      ("error", .str "Endpoint not found"),
      ("available_endpoints", .arr
        [.str "GET /api/health - Server health check",
         .str "GET /api/mixer/status - Mixer status and levels",
         .str "GET /api/mixer/microphone/status - Microphone status",
         .str "POST /api/mixer/microphone/start - Start microphone",
         .str "POST /api/mixer/microphone/stop - Stop microphone",
         .str "POST /api/mixer/microphone/gain - Set microphone gain"])]⟩)

/-- Embedding of `MockCppHandler.do_POST` of `start_mock_server_8082.py` (lines
118-178).  In the `start` branch the source sets `enabled = True` before
evaluating `float(gain)`, so a failing conversion leaves `enabled`
already flipped (modelled by the `none`-response case). -/
def do_POST (path : List Char) (body : List (String × PyVal))
    (st : ServerState) : ServerState × Option Response :=
  if path = "/api/mixer/microphone/start".data then
    let gain := dictGet body "gain" (.num 75)
    let st1 := { st with microphone := { st.microphone with enabled := true } }
    match pyFloat gain with
    | .ok g =>
      let st2 := { st1 with microphone :=
          { st1.microphone with gain := clampHundred g / 100 } }
      let st3 := { st2 with microphone :=
          { st2.microphone with talkover := true } }
      (st3, some ⟨200, .obj [("success", .boolv true),
        ("action", .str "microphone_started"),
        ("gain", pyValJson gain),
        ("talkover_enabled", .boolv true),
        ("message", .str "Microphone started with auto-talkover")]⟩)
    | _ => (st1, none)
  else if path = "/api/mixer/microphone/stop".data then
    let st' := { st with microphone :=
        { st.microphone with enabled := false, talkover := false } }
    (st', some ⟨200, .obj [("success", .boolv true),
      ("action", .str "microphone_stopped"),
      ("talkover_enabled", .boolv false),
      ("message", .str "Microphone stopped, talkover disabled")]⟩)
  else if path = "/api/mixer/microphone/gain".data then
    let gain := dictGet body "gain" (.num 75)
    match pyFloat gain with
    | .ok g =>
      let st' := { st with microphone :=
          { st.microphone with gain := clampHundred g / 100 } }
      (st', some ⟨200, .obj [("success", .boolv true),
        ("action", .str "microphone_gain_set"),
        ("gain", pyValJson gain),
        ("normalized_gain", .num st'.microphone.gain)]⟩)
    | _ => (st, none)
  else
    (st, some ⟨404, .obj [("success", .boolv false),
      ("error", .str ("POST endpoint not implemented: " ++ String.mk path))]⟩)

end Mock8082

/-- One handler invocation: a GET or a POST against either server's
routing, with its request environment. -/
inductive Request where
  | get (path : List Char) (env : GetEnv)
  | post (path : List Char) (body : List (String × PyVal)) (now : ℚ)

/-- Apply one request to the port-8080 server state. -/
def applyMock (st : ServerState) : Request → ServerState
  | .get p env => (Mock.do_GET p env st).1
  | .post p body now => (Mock.do_POST p body now st).1

/-- Apply one request to the port-8082 server state. -/
def applyMock8082 (st : ServerState) : Request → ServerState
  | .get p env => (Mock8082.do_GET p env st).1
  | .post p body _ => (Mock8082.do_POST p body st).1

/-- Run a sequence of requests against the port-8080 server. -/
def runMock (st : ServerState) (l : List Request) : ServerState :=
  l.foldl applyMock st

/-- Run a sequence of requests against the port-8082 server. -/
def runMock8082 (st : ServerState) (l : List Request) : ServerState :=
  l.foldl applyMock8082 st

/-- The state invariant of claim C1: every normalized scalar in `[0,1]`,
exactly the two fixed channels, nonnegative positions. -/
def Inv (st : ServerState) : Prop :=
  0 ≤ st.mixer.crossfader ∧ st.mixer.crossfader ≤ 1 ∧
  0 ≤ st.mixer.master_volume ∧ st.mixer.master_volume ≤ 1 ∧
  0 ≤ st.microphone.gain ∧ st.microphone.gain ≤ 1 ∧
  st.mixer.channels.map Channel.id = [1, 2] ∧
  ∀ c ∈ st.mixer.channels, 0 ≤ c.volume ∧ c.volume ≤ 1 ∧ 0 ≤ c.position

/-- The initial channel-1 record, for concrete instantiations. -/
def defCh1 : Channel :=
  { id := 1, volume := 7 / 10, loaded_track := .null, is_playing := false,
    position := 0, eq := { low := 0, mid := 0, high := 0 } }

/-- The initial channel-2 record. -/
def defCh2 : Channel := { defCh1 with id := 2 }

/-- A fixed request environment for concrete instantiations (all random
draws at 1/2, which lies in every documented sampling interval). -/
def envA : GetEnv :=
  { now := 100, timestamp := "t", u1 := 1 / 2, u2 := 1 / 2, u3 := 1 / 2,
    u4 := 1 / 2, umic := 1 / 2, cpu := 20, mem := 50, conn := 3 }

/-- A channel-1 record mid-playback at position 5 (a concrete prior state
for the C6 witness). -/
def playCh1 : Channel := { defCh1 with is_playing := true, position := 5 }

/-- The initial state with channel 1 playing at position 5. -/
def stPlay : ServerState :=
  { server_state 0 with mixer :=
      { (server_state 0).mixer with channels := [playCh1, defCh2] } }

/-- The master-level formula exactly as claim C2 states it (channel 1
weighted by `1 − crossfader`, channel 2 by `crossfader`, both scaled by
`master_volume`, master = max of the two).  Stated from the claim's words,
for comparison against the two source embeddings. -/
def claimedMasterLevel (ch1_level ch1_vol ch2_level ch2_vol
    crossfader master_volume : ℚ) : ℚ :=
  max (ch1_level * ch1_vol * (1 - crossfader) * master_volume)
      (ch2_level * ch2_vol * crossfader * master_volume)

/-- Membership in the unit interval. -/
def inUnit (q : ℚ) : Prop := 0 ≤ q ∧ q ≤ 1

/-- The initial state with the crossfader hard left (0) and channel 2
playing — the C2 counterexample state. -/
def stCf0 : ServerState :=
  { server_state 0 with mixer := { (server_state 0).mixer with
      crossfader := 0,
      channels := [defCh1, { defCh2 with is_playing := true }] } }

lemma clamp01_nonneg (v : ℚ) : 0 ≤ clamp01 v := le_max_left 0 _

lemma clamp01_le_one (v : ℚ) : clamp01 v ≤ 1 :=
  max_le (by norm_num) (min_le_left 1 v)

lemma clamp100_nonneg (v : ℚ) : 0 ≤ clamp100 v := le_max_left 0 _

lemma clamp100_le (v : ℚ) : clamp100 v ≤ 100 :=
  max_le (by norm_num) (min_le_left 100 v)

/-- C3: for every numeric `value` in the body, `POST /api/mixer/crossfader`
stores `clamp(value, 0, 1)` as the crossfader (changing nothing else) and
responds 200 with `success: true`, `action: "crossfader_set"` and the
clamped value — never an error. -/
theorem C3_crossfader_clamp (st : ServerState) (v now : ℚ)
    (body : List (String × PyVal))
    (hv : lookupStr "value" body = some (.num v)) :
    (Mock.do_POST "/api/mixer/crossfader".data body now st).1
      = { st with mixer := { st.mixer with crossfader := clamp01 v } } ∧
    (Mock.do_POST "/api/mixer/crossfader".data body now st).2
      = some ⟨200, .obj [("success", .boolv true),
          ("action", .str "crossfader_set"),
          ("value", .num (clamp01 v))]⟩ := by
  constructor <;>
    simp +decide [Mock.do_POST, dictGet, hv, pyFloat, clampUnit]

/-- C3 witness: `{"value": 1.5}` is stored and echoed as `1.0`. -/
theorem C3_crossfader_clamp_witness :
    lookupStr "value" [("value", PyVal.num (3 / 2))] = some (.num (3 / 2)) ∧
    clamp01 (3 / 2) = 1 ∧
    (Mock.do_POST "/api/mixer/crossfader".data [("value", PyVal.num (3 / 2))] 0
        (server_state 0)).2
      = some ⟨200, .obj [("success", .boolv true),
          ("action", .str "crossfader_set"),
          ("value", .num (clamp01 (3 / 2)))]⟩ :=
  ⟨by rfl, by norm_num [clamp01],
    (C3_crossfader_clamp (server_state 0) (3 / 2) 0
      [("value", PyVal.num (3 / 2))] (by rfl)).2⟩

/-- C4: for each channel id in {1, 2} and numeric volume `v`,
`POST /api/mixer/channel/{id}/volume` sets that channel's volume to
`clamp(v, 0, 1)` and leaves the other channel and every other state field
unchanged. -/
theorem C4_channel_volume_frame (st : ServerState) (v now : ℚ)
    (c1 c2 : Channel) (body : List (String × PyVal))
    (h : st.mixer.channels = [c1, c2])
    (hv : lookupStr "value" body = some (.num v)) :
    (Mock.do_POST "/api/mixer/channel/1/volume".data body now st).1
      = { st with mixer := { st.mixer with
          channels := [{ c1 with volume := clamp01 v }, c2] } } ∧
    (Mock.do_POST "/api/mixer/channel/2/volume".data body now st).1
      = { st with mixer := { st.mixer with
          channels := [c1, { c2 with volume := clamp01 v }] } } := by
  constructor <;>
    simp +decide [Mock.do_POST, Mock.handleChannelVolume, dictGet, hv,
      pyFloat, clampUnit, h, splitOnChar, pyInt?, pyStrip, pyWhitespace,
      pyDigits?, takeGrouped]

/-- C4 witness: setting channel 1's volume to 1/4 from the initial state
touches only that channel's volume. -/
theorem C4_channel_volume_frame_witness :
    (server_state 0).mixer.channels = [defCh1, defCh2] ∧
    lookupStr "value" [("value", PyVal.num (1 / 4))] = some (.num (1 / 4)) ∧
    (Mock.do_POST "/api/mixer/channel/1/volume".data
        [("value", PyVal.num (1 / 4))] 0 (server_state 0)).1
      = { server_state 0 with mixer := { (server_state 0).mixer with
          channels := [{ defCh1 with volume := clamp01 (1 / 4) }, defCh2] } } :=
  ⟨by rfl, by rfl,
    (C4_channel_volume_frame (server_state 0) (1 / 4) 0 defCh1 defCh2
      [("value", PyVal.num (1 / 4))] (by rfl) (by rfl)).1⟩

/-- C6: for each channel id in {1, 2} and any prior channel state,
`playback` action "stop" forces `is_playing = false` and `position = 0`,
while "pause" forces `is_playing = false` and retains the position. -/
theorem C6_playback_stop_pause (st : ServerState) (now : ℚ)
    (c1 c2 : Channel) (h : st.mixer.channels = [c1, c2]) :
    (Mock.do_POST "/api/mixer/channel/1/playback".data
        [("action", PyVal.str "stop")] now st).1
      = { st with mixer := { st.mixer with
          channels := [{ c1 with is_playing := false, position := 0 }, c2] } } ∧
    (Mock.do_POST "/api/mixer/channel/2/playback".data
        [("action", PyVal.str "stop")] now st).1
      = { st with mixer := { st.mixer with
          channels := [c1, { c2 with is_playing := false, position := 0 }] } } ∧
    (Mock.do_POST "/api/mixer/channel/1/playback".data
        [("action", PyVal.str "pause")] now st).1
      = { st with mixer := { st.mixer with
          channels := [{ c1 with is_playing := false }, c2] } } ∧
    (Mock.do_POST "/api/mixer/channel/2/playback".data
        [("action", PyVal.str "pause")] now st).1
      = { st with mixer := { st.mixer with
          channels := [c1, { c2 with is_playing := false }] } } := by
  refine ⟨?_, ?_, ?_, ?_⟩ <;>
    simp +decide [Mock.do_POST, Mock.handleChannelPlayback, dictGet,
      h, splitOnChar, pyInt?, pyStrip, pyWhitespace, pyDigits?, takeGrouped]

/-- C6 witness: stopping channel 1 from a playing state at position 5
zeroes the position and clears the flag. -/
theorem C6_playback_stop_pause_witness :
    stPlay.mixer.channels = [playCh1, defCh2] ∧
    (Mock.do_POST "/api/mixer/channel/1/playback".data
        [("action", PyVal.str "stop")] 0 stPlay).1
      = { stPlay with mixer := { stPlay.mixer with
          channels := [{ playCh1 with is_playing := false, position := 0 },
            defCh2] } } :=
  ⟨by rfl,
    (C6_playback_stop_pause stPlay 0 playCh1 defCh2 (by rfl)).1⟩

/-- C7: an action outside {play, pause, stop} leaves the whole state
unchanged, yet the handler answers 200 `success: true`, echoes
`playback_<action>` and reports the channel's current `is_playing`. -/
theorem C7_unrecognized_action (st : ServerState) (now : ℚ) (act : String)
    (c1 c2 : Channel) (body : List (String × PyVal))
    (h : st.mixer.channels = [c1, c2])
    (ha : lookupStr "action" body = some (.str act))
    (h1 : act ≠ "play") (h2 : act ≠ "pause") (h3 : act ≠ "stop") :
    (Mock.do_POST "/api/mixer/channel/1/playback".data body now st)
      = (st, some ⟨200, .obj [("success", .boolv true),
          ("action", .str ("playback_" ++ act)),
          ("channel", .num 1),
          ("is_playing", .boolv c1.is_playing)]⟩) ∧
    (Mock.do_POST "/api/mixer/channel/2/playback".data body now st)
      = (st, some ⟨200, .obj [("success", .boolv true),
          ("action", .str ("playback_" ++ act)),
          ("channel", .num 2),
          ("is_playing", .boolv c2.is_playing)]⟩) := by
  obtain ⟨sts, stu, stt, ⟨mcf, mmv, mch⟩, stmic, sta⟩ := st
  dsimp only at h
  subst h
  constructor <;>
    · simp +decide [Mock.do_POST, Mock.handleChannelPlayback, dictGet, ha,
        pyStr, h1, h2, h3, splitOnChar, pyInt?, pyStrip, pyWhitespace,
        pyDigits?, takeGrouped]
      try norm_num

/-- C7 witness: action "rewind" on channel 2 is echoed without mutation. -/
theorem C7_unrecognized_action_witness :
    (server_state 0).mixer.channels = [defCh1, defCh2] ∧
    lookupStr "action" [("action", PyVal.str "rewind")]
      = some (.str "rewind") ∧
    ("rewind" : String) ≠ "play" ∧ ("rewind" : String) ≠ "pause" ∧
    ("rewind" : String) ≠ "stop" ∧
    (Mock.do_POST "/api/mixer/channel/2/playback".data
        [("action", PyVal.str "rewind")] 0 (server_state 0))
      = (server_state 0, some ⟨200, .obj [("success", .boolv true),
          ("action", .str ("playback_" ++ "rewind")),
          ("channel", .num 2),
          ("is_playing", .boolv defCh2.is_playing)]⟩) :=
  ⟨by rfl, by rfl, by decide, by decide, by decide,
    (C7_unrecognized_action (server_state 0) 0 "rewind" defCh1 defCh2
      [("action", PyVal.str "rewind")] (by rfl) (by rfl)
      (by decide) (by decide) (by decide)).2⟩

/-- C8: `microphone/start` with numeric gain `g` sets `enabled = true`,
`gain = clamp(g, 0, 100)/100` (so `g = 50` stores `0.5`) and
`talkover = true`; `microphone/stop` clears `enabled` and `talkover` while
leaving the gain untouched; start-then-stop leaves both flags false and a
subsequent start re-enables both. -/
theorem C8_microphone_start_stop (st : ServerState) (g : ℚ)
    (body body2 : List (String × PyVal))
    (hg : lookupStr "gain" body = some (.num g)) :
    (Mock8082.do_POST "/api/mixer/microphone/start".data body st).1
      = { st with microphone := { st.microphone with
          enabled := true, gain := clamp100 g / 100, talkover := true } } ∧
    clamp100 50 / 100 = 1 / 2 ∧
    (Mock8082.do_POST "/api/mixer/microphone/stop".data body2 st).1
      = { st with microphone := { st.microphone with
          enabled := false, talkover := false } } ∧
    (Mock8082.do_POST "/api/mixer/microphone/stop".data body2
        (Mock8082.do_POST "/api/mixer/microphone/start".data body st).1).1.microphone
      = { st.microphone with
          enabled := false, gain := clamp100 g / 100, talkover := false } ∧
    (Mock8082.do_POST "/api/mixer/microphone/start".data body
        (Mock8082.do_POST "/api/mixer/microphone/stop".data body2 st).1).1.microphone
      = { st.microphone with
          enabled := true, gain := clamp100 g / 100, talkover := true } := by
  refine ⟨?_, by norm_num [clamp100], ?_, ?_, ?_⟩ <;>
    simp +decide [Mock8082.do_POST, dictGet, hg, pyFloat, clampHundred]

/-- C8 witness: starting with gain 50 stores `0.5`, and stop clears both
flags. -/
theorem C8_microphone_start_stop_witness :
    lookupStr "gain" [("gain", PyVal.num 50)] = some (.num 50) ∧
    (Mock8082.do_POST "/api/mixer/microphone/start".data
        [("gain", PyVal.num 50)] (server_state 0)).1
      = { server_state 0 with microphone :=
          { (server_state 0).microphone with
            enabled := true, gain := clamp100 50 / 100, talkover := true } } :=
  ⟨by rfl,
    (C8_microphone_start_stop (server_state 0) 50 [("gain", PyVal.num 50)]
      [] (by rfl)).1⟩

/-- C9 counterexample: the claim includes `GET /api/health`, but in both
files the health response body has no `success` field at all. -/
theorem C9_health_no_success :
    (Mock.do_GET "/api/health".data envA (server_state 0)).2.map
        (fun r => (jLookup "success" r.body).isNone) = some true ∧
    (Mock8082.do_GET "/api/health".data envA (server_state 0)).2.map
        (fun r => (jLookup "success" r.body).isNone) = some true := by
  constructor <;> rfl

/-- C9 amended: every JSON response produced by either handler on any path
and method except `GET /api/health` contains a `success` field equal to
`true` or `false`; the health response omits it. -/
theorem C9_success_field_amended :
    (∀ (path : List Char) (env : GetEnv) (st : ServerState) (resp : Response),
      path ≠ "/api/health".data →
      (Mock.do_GET path env st).2 = some resp →
      ∃ b, jLookup "success" resp.body = some (.boolv b)) ∧
    (∀ (path : List Char) (body : List (String × PyVal)) (now : ℚ)
      (st : ServerState) (resp : Response),
      (Mock.do_POST path body now st).2 = some resp →
      ∃ b, jLookup "success" resp.body = some (.boolv b)) ∧
    (∀ (path : List Char) (env : GetEnv) (st : ServerState) (resp : Response),
      path ≠ "/api/health".data →
      (Mock8082.do_GET path env st).2 = some resp →
      ∃ b, jLookup "success" resp.body = some (.boolv b)) ∧
    (∀ (path : List Char) (body : List (String × PyVal))
      (st : ServerState) (resp : Response),
      (Mock8082.do_POST path body st).2 = some resp →
      ∃ b, jLookup "success" resp.body = some (.boolv b)) := by
  refine ⟨?_, ?_, ?_, ?_⟩
  · intro path env st resp hne h
    simp only [Mock.do_GET] at h
    repeat' split at h
    all_goals first
      | exact absurd (by assumption) hne
      | exact ⟨true, by cases h; rfl⟩
      | exact ⟨false, by cases h; rfl⟩
      | cases h
  · intro path body now st resp h
    simp only [Mock.do_POST, Mock.handleChannelVolume, Mock.handleChannelLoad,
      Mock.handleChannelPlayback, err400] at h
    repeat' split at h
    all_goals first
      | exact ⟨true, by cases h; rfl⟩
      | exact ⟨false, by cases h; rfl⟩
      | cases h
  · intro path env st resp hne h
    simp only [Mock8082.do_GET] at h
    repeat' split at h
    all_goals first
      | exact absurd (by assumption) hne
      | exact ⟨true, by cases h; rfl⟩
      | exact ⟨false, by cases h; rfl⟩
      | cases h
  · intro path body st resp h
    simp only [Mock8082.do_POST] at h
    repeat' split at h
    all_goals first
      | exact ⟨true, by cases h; rfl⟩
      | exact ⟨false, by cases h; rfl⟩
      | cases h

/-- C9 witness: concrete instances of all four parts — `GET /api/stats` and
`POST microphone/toggle` on port 8080, `GET /api/mixer/status` and
`POST microphone/stop` on port 8082. -/
theorem C9_success_field_amended_witness :
    ("/api/stats".data ≠ "/api/health".data) ∧
    (∃ b, jLookup "success"
        ((Mock.do_GET "/api/stats".data envA (server_state 0)).2.getD
          ⟨0, .null⟩).body = some (.boolv b)) ∧
    (∃ b, jLookup "success"
        ((Mock.do_POST "/api/mixer/microphone/toggle".data [] 0
          (server_state 0)).2.getD ⟨0, .null⟩).body = some (.boolv b)) ∧
    (∃ b, jLookup "success"
        ((Mock8082.do_GET "/api/mixer/status".data envA (server_state 0)).2.getD
          ⟨0, .null⟩).body = some (.boolv b)) ∧
    (∃ b, jLookup "success"
        ((Mock8082.do_POST "/api/mixer/microphone/stop".data []
          (server_state 0)).2.getD ⟨0, .null⟩).body = some (.boolv b)) :=
  ⟨by decide,
    C9_success_field_amended.1 "/api/stats".data envA (server_state 0) _
      (by decide) (by rfl),
    C9_success_field_amended.2.1 "/api/mixer/microphone/toggle".data [] 0
      (server_state 0) _ (by rfl),
    C9_success_field_amended.2.2.1 "/api/mixer/status".data envA
      (server_state 0) _ (by decide) (by rfl),
    C9_success_field_amended.2.2.2 "/api/mixer/microphone/stop".data []
      (server_state 0) _ (by rfl)⟩

lemma suffix_last {suf path : List Char} (c : Char)
    (h : List.isSuffixOf suf path = true) (hc : suf.getLast? = some c) :
    path.getLast? = some c := by
  obtain ⟨t, rfl⟩ := List.isSuffixOf_iff_suffix.mp h
  rw [List.getLast?_append_of_ne_nil]
  · exact hc
  · intro he
    rw [he] at hc
    cases hc

lemma handleVolume_bad (parts : List (List Char)) (seg : List Char)
    (body : List (String × PyVal)) (st : ServerState)
    (hseg : parts[4]? = some seg)
    (hbad : ∀ n : ℤ, pyInt? seg = some n → n ≠ 1 ∧ n ≠ 2) :
    Mock.handleChannelVolume parts body st
        = (st, some (err400 "Invalid channel ID")) ∨
    Mock.handleChannelVolume parts body st
        = (st, some (err400 "Invalid channel ID in path")) := by
  cases hn : pyInt? seg with
  | none => right; simp [Mock.handleChannelVolume, hseg, hn]
  | some n =>
      left
      have hb := hbad n hn
      simp [Mock.handleChannelVolume, hseg, hn]
      intro h0 h2
      omega

lemma handleLoad_bad (parts : List (List Char)) (seg : List Char)
    (body : List (String × PyVal)) (now : ℚ) (st : ServerState)
    (hseg : parts[4]? = some seg)
    (hbad : ∀ n : ℤ, pyInt? seg = some n → n ≠ 1 ∧ n ≠ 2) :
    Mock.handleChannelLoad parts body now st
        = (st, some (err400 "Invalid channel ID")) ∨
    Mock.handleChannelLoad parts body now st
        = (st, some (err400 "Invalid channel ID in path")) := by
  cases hn : pyInt? seg with
  | none => right; simp [Mock.handleChannelLoad, hseg, hn]
  | some n =>
      left
      have hb := hbad n hn
      simp [Mock.handleChannelLoad, hseg, hn]
      intro h0 h2
      omega

lemma handlePlayback_bad (parts : List (List Char)) (seg : List Char)
    (body : List (String × PyVal)) (st : ServerState)
    (hseg : parts[4]? = some seg)
    (hbad : ∀ n : ℤ, pyInt? seg = some n → n ≠ 1 ∧ n ≠ 2) :
    Mock.handleChannelPlayback parts body st
        = (st, some (err400 "Invalid channel ID")) ∨
    Mock.handleChannelPlayback parts body st
        = (st, some (err400 "Invalid channel ID in path")) := by
  cases hn : pyInt? seg with
  | none => right; simp [Mock.handleChannelPlayback, hseg, hn]
  | some n =>
      left
      have hb := hbad n hn
      simp [Mock.handleChannelPlayback, hseg, hn]
      intro h0 h2
      omega

/-- C5: on every channel-scoped POST route (`volume`, `load`, `playback`),
a channel-identifier segment that does not parse as an integer in {1, 2}
yields an HTTP 400 response with `success: false` and an error message,
and leaves the state completely unchanged. -/
theorem C5_invalid_channel_id (path seg : List Char)
    (body : List (String × PyVal)) (now : ℚ) (st : ServerState)
    (hpre : List.isPrefixOf "/api/mixer/channel/".data path = true)
    (hsuf : List.isSuffixOf "/volume".data path = true ∨
            List.isSuffixOf "/load".data path = true ∨
            List.isSuffixOf "/playback".data path = true)
    (hseg : (splitOnChar '/' path)[4]? = some seg)
    (hbad : ∀ n : ℤ, pyInt? seg = some n → n ≠ 1 ∧ n ≠ 2) :
    (Mock.do_POST path body now st).1 = st ∧
    ∃ resp, (Mock.do_POST path body now st).2 = some resp ∧
      resp.status_code = 400 ∧
      jLookup "success" resp.body = some (.boolv false) ∧
      ∃ msg, jLookup "error" resp.body = some (.str msg) := by
  rcases hsuf with hsv | hsl | hsp
  · have hnc : path ≠ "/api/mixer/crossfader".data := by
      intro he
      rw [he] at hsv
      exact absurd hsv (by decide)
    have hroute : Mock.do_POST path body now st
        = Mock.handleChannelVolume (splitOnChar '/' path) body st := by
      simp [Mock.do_POST, hnc, hpre, hsv]
    rcases handleVolume_bad (splitOnChar '/' path) seg body st hseg hbad
        with h | h <;>
      · rw [hroute, h]
        exact ⟨rfl, _, rfl, rfl, rfl, _, rfl⟩
  · have hlast : path.getLast? = some 'd' := suffix_last 'd' hsl (by decide)
    have hnc : path ≠ "/api/mixer/crossfader".data := by
      intro he
      rw [he] at hsl
      exact absurd hsl (by decide)
    have hv : List.isSuffixOf "/volume".data path = false := by
      cases hvb : List.isSuffixOf "/volume".data path
      · rfl
      · have he := suffix_last 'e' hvb (by decide)
        rw [hlast] at he
        exact absurd he (by decide)
    have hroute : Mock.do_POST path body now st
        = Mock.handleChannelLoad (splitOnChar '/' path) body now st := by
      simp [Mock.do_POST, hnc, hpre, hsl, hv]
    rcases handleLoad_bad (splitOnChar '/' path) seg body now st hseg hbad
        with h | h <;>
      · rw [hroute, h]
        exact ⟨rfl, _, rfl, rfl, rfl, _, rfl⟩
  · have hlast : path.getLast? = some 'k' := suffix_last 'k' hsp (by decide)
    have hnc : path ≠ "/api/mixer/crossfader".data := by
      intro he
      rw [he] at hsp
      exact absurd hsp (by decide)
    have hv : List.isSuffixOf "/volume".data path = false := by
      cases hvb : List.isSuffixOf "/volume".data path
      · rfl
      · have he := suffix_last 'e' hvb (by decide)
        rw [hlast] at he
        exact absurd he (by decide)
    have hl : List.isSuffixOf "/load".data path = false := by
      cases hlb : List.isSuffixOf "/load".data path
      · rfl
      · have he := suffix_last 'd' hlb (by decide)
        rw [hlast] at he
        exact absurd he (by decide)
    have hroute : Mock.do_POST path body now st
        = Mock.handleChannelPlayback (splitOnChar '/' path) body st := by
      simp [Mock.do_POST, hnc, hpre, hsp, hv, hl]
    rcases handlePlayback_bad (splitOnChar '/' path) seg body st hseg hbad
        with h | h <;>
      · rw [hroute, h]
        exact ⟨rfl, _, rfl, rfl, rfl, _, rfl⟩

/-- C5 witness: channel id 0 on the volume route is rejected with a 400
and no mutation. -/
theorem C5_invalid_channel_id_witness :
    List.isPrefixOf "/api/mixer/channel/".data
      "/api/mixer/channel/0/volume".data = true ∧
    (splitOnChar '/' "/api/mixer/channel/0/volume".data)[4]? = some "0".data ∧
    ((Mock.do_POST "/api/mixer/channel/0/volume".data [] 0
        (server_state 0)).1 = server_state 0 ∧
     ∃ resp, (Mock.do_POST "/api/mixer/channel/0/volume".data [] 0
         (server_state 0)).2 = some resp ∧
       resp.status_code = 400 ∧
       jLookup "success" resp.body = some (.boolv false) ∧
       ∃ msg, jLookup "error" resp.body = some (.str msg)) :=
  ⟨by decide, by decide,
    C5_invalid_channel_id "/api/mixer/channel/0/volume".data "0".data [] 0
      (server_state 0) (by decide) (Or.inl (by decide)) (by decide)
      (by
        intro n hn
        rw [show pyInt? "0".data = some 0 from rfl] at hn
        cases hn
        constructor <;> decide)⟩

lemma playLevel_inUnit {u : ℚ} (b : Bool) (h1 : 3 / 10 ≤ u)
    (h2 : u ≤ 9 / 10) : inUnit (if b then u else 0) := by
  cases b <;> constructor <;> simp <;> linarith

lemma inUnit_mul {a b : ℚ} (ha : inUnit a) (hb : inUnit b) :
    inUnit (a * b) := by
  refine ⟨mul_nonneg ha.1 hb.1, ?_⟩
  have := mul_le_mul ha.2 hb.2 hb.1 zero_le_one
  simpa using this

lemma inUnit_max {a b : ℚ} (ha : inUnit a) (hb : inUnit b) :
    inUnit (max a b) :=
  ⟨le_max_of_le_left ha.1, max_le ha.2 hb.2⟩

lemma inUnit_one_sub {a : ℚ} (h : inUnit a) : inUnit (1 - a) :=
  ⟨by linarith [h.2], by linarith [h.1]⟩

lemma le_mv_max {a b mv : ℚ} (hmv : 0 ≤ mv) :
    max (a * mv) (b * mv) ≤ mv * max a b := by
  apply max_le
  · rw [mul_comm]
    exact mul_le_mul_of_nonneg_left (le_max_left a b) hmv
  · rw [mul_comm]
    exact mul_le_mul_of_nonneg_left (le_max_right a b) hmv

set_option maxRecDepth 4000 in
/-- The audio levels written by `GET /api/mixer/status` on port 8080, in
closed form. -/
lemma mock_status_levels (env : GetEnv) (st : ServerState) (c1 c2 : Channel)
    (h : st.mixer.channels = [c1, c2]) :
    (Mock.do_GET "/api/mixer/status".data env st).1.audio_levels =
      { master_left := max
          ((if c1.is_playing then env.u1 else 0) * c1.volume *
            (1 - st.mixer.crossfader) * st.mixer.master_volume)
          ((if c2.is_playing then env.u3 else 0) * c2.volume *
            st.mixer.crossfader * st.mixer.master_volume),
        master_right := max
          ((if c1.is_playing then env.u1 else 0) * c1.volume *
            (1 - st.mixer.crossfader) * st.mixer.master_volume)
          ((if c2.is_playing then env.u3 else 0) * c2.volume *
            st.mixer.crossfader * st.mixer.master_volume),
        channel_1_left := if c1.is_playing then env.u1 else 0,
        channel_1_right := if c1.is_playing then env.u2 else 0,
        channel_2_left := if c2.is_playing then env.u3 else 0,
        channel_2_right := if c2.is_playing then env.u4 else 0,
        microphone := st.audio_levels.microphone } := by
  cases hp1 : c1.is_playing <;> cases hp2 : c2.is_playing <;>
    simp +decide [Mock.do_GET, h, hp1, hp2]


set_option maxRecDepth 4000 in
/-- The audio levels written by `simulate_audio_levels` on port 8082, in
closed form: no crossfader weighting, microphone included in the max. -/
lemma sim8082_levels (env : GetEnv) (st : ServerState) (c1 c2 : Channel)
    (h : st.mixer.channels = [c1, c2]) :
    (Mock8082.simulate_audio_levels env st).1.audio_levels =
      { master_left := max
          (max ((if c1.is_playing then env.u1 else 0) * c1.volume)
            ((if c2.is_playing then env.u3 else 0) * c2.volume))
          (if st.microphone.enabled then env.umic * st.microphone.gain else 0)
          * st.mixer.master_volume,
        master_right := max
          (max ((if c1.is_playing then env.u1 else 0) * c1.volume)
            ((if c2.is_playing then env.u3 else 0) * c2.volume))
          (if st.microphone.enabled then env.umic * st.microphone.gain else 0)
          * st.mixer.master_volume,
        channel_1_left := if c1.is_playing then env.u1 else 0,
        channel_1_right := if c1.is_playing then env.u2 else 0,
        channel_2_left := if c2.is_playing then env.u3 else 0,
        channel_2_right := if c2.is_playing then env.u4 else 0,
        microphone :=
          if st.microphone.enabled then env.umic * st.microphone.gain
          else 0 } := by
  cases hp1 : c1.is_playing <;> cases hp2 : c2.is_playing <;>
    cases hm : st.microphone.enabled <;>
    simp [Mock8082.simulate_audio_levels, Mock8082.chanLevelLoop,
      Mock8082.setChanLevels, Mock8082.uLeft, Mock8082.uRight, h, hp1, hp2, hm]

/-- C2 counterexample: with the crossfader hard left (0) and only channel
2 playing (level drawn 1/2, volume 0.7, master volume 0.8), the port-8082
level simulation invoked by `GET /api/mixer/status` reports master level
`0.28`, while the claimed crossfader-weighted formula yields `0` — the
8082 variant ignores the crossfader. -/
theorem C2_level_sim_counterexample :
    (Mock8082.do_GET "/api/mixer/status".data envA stCf0).1.audio_levels.master_left
      = 7 / 25 ∧
    (Mock8082.do_GET "/api/mixer/status".data envA stCf0).1.audio_levels.channel_1_left
      = 0 ∧
    (Mock8082.do_GET "/api/mixer/status".data envA stCf0).1.audio_levels.channel_2_left
      = 1 / 2 ∧
    claimedMasterLevel 0 (7 / 10) (1 / 2) (7 / 10) 0 (8 / 10) = 0 ∧
    (7 / 25 : ℚ) ≠ 0 := by
  refine ⟨?_, ?_, ?_, ?_, by norm_num⟩ <;>
    · simp +decide [Mock8082.do_GET, Mock8082.simulate_audio_levels,
        Mock8082.chanLevelLoop, Mock8082.setChanLevels, Mock8082.uLeft,
        Mock8082.uRight, stCf0, defCh1, defCh2, envA, server_state,
        claimedMasterLevel, apply_ite]
      all_goals norm_num

/-- C2 amended: under the documented sampling bounds, the port-8080 level
simulation invoked by `GET /api/mixer/status` computes each master level by
the crossfader-weighted formula of the claim (channel 1 weight
`1 − crossfader`, channel 2 weight `crossfader`, scaled by
`master_volume`), every derived level lies in [0, 1], and the master level
never exceeds `master_volume` times the maximum channel contribution; the
port-8082 variant instead computes master = `max(ch1·vol1, ch2·vol2, mic) ·
master_volume` with no crossfader weighting (and the microphone included),
with the same boundedness properties. -/
theorem C2_level_sim_amended (env : GetEnv) (st : ServerState) (c1 c2 : Channel)
    (h : st.mixer.channels = [c1, c2])
    (hv1 : inUnit c1.volume) (hv2 : inUnit c2.volume)
    (hcf : inUnit st.mixer.crossfader) (hmv : inUnit st.mixer.master_volume)
    (hgn : inUnit st.microphone.gain)
    (hu1 : 3 / 10 ≤ env.u1) (hu1' : env.u1 ≤ 9 / 10)
    (hu2 : 3 / 10 ≤ env.u2) (hu2' : env.u2 ≤ 9 / 10)
    (hu3 : 3 / 10 ≤ env.u3) (hu3' : env.u3 ≤ 9 / 10)
    (hu4 : 3 / 10 ≤ env.u4) (hu4' : env.u4 ≤ 9 / 10)
    (hum : 3 / 10 ≤ env.umic) (hum' : env.umic ≤ 8 / 10) :
    ((Mock.do_GET "/api/mixer/status".data env st).1.audio_levels.master_left
        = claimedMasterLevel
            (Mock.do_GET "/api/mixer/status".data env st).1.audio_levels.channel_1_left
            c1.volume
            (Mock.do_GET "/api/mixer/status".data env st).1.audio_levels.channel_2_left
            c2.volume st.mixer.crossfader st.mixer.master_volume ∧
      (Mock.do_GET "/api/mixer/status".data env st).1.audio_levels.master_right
        = (Mock.do_GET "/api/mixer/status".data env st).1.audio_levels.master_left ∧
      inUnit (Mock.do_GET "/api/mixer/status".data env st).1.audio_levels.channel_1_left ∧
      inUnit (Mock.do_GET "/api/mixer/status".data env st).1.audio_levels.channel_1_right ∧
      inUnit (Mock.do_GET "/api/mixer/status".data env st).1.audio_levels.channel_2_left ∧
      inUnit (Mock.do_GET "/api/mixer/status".data env st).1.audio_levels.channel_2_right ∧
      inUnit (Mock.do_GET "/api/mixer/status".data env st).1.audio_levels.master_left ∧
      inUnit (Mock.do_GET "/api/mixer/status".data env st).1.audio_levels.master_right ∧
      (Mock.do_GET "/api/mixer/status".data env st).1.audio_levels.master_left
        ≤ st.mixer.master_volume *
          max ((Mock.do_GET "/api/mixer/status".data env st).1.audio_levels.channel_1_left
                * c1.volume * (1 - st.mixer.crossfader))
              ((Mock.do_GET "/api/mixer/status".data env st).1.audio_levels.channel_2_left
                * c2.volume * st.mixer.crossfader)) ∧
    ((Mock8082.simulate_audio_levels env st).1.audio_levels.master_left
        = max (max ((Mock8082.simulate_audio_levels env st).1.audio_levels.channel_1_left
                     * c1.volume)
                   ((Mock8082.simulate_audio_levels env st).1.audio_levels.channel_2_left
                     * c2.volume))
              ((Mock8082.simulate_audio_levels env st).1.audio_levels.microphone)
          * st.mixer.master_volume ∧
      (Mock8082.simulate_audio_levels env st).1.audio_levels.master_right
        = (Mock8082.simulate_audio_levels env st).1.audio_levels.master_left ∧
      inUnit (Mock8082.simulate_audio_levels env st).1.audio_levels.channel_1_left ∧
      inUnit (Mock8082.simulate_audio_levels env st).1.audio_levels.channel_1_right ∧
      inUnit (Mock8082.simulate_audio_levels env st).1.audio_levels.channel_2_left ∧
      inUnit (Mock8082.simulate_audio_levels env st).1.audio_levels.channel_2_right ∧
      inUnit (Mock8082.simulate_audio_levels env st).1.audio_levels.microphone ∧
      inUnit (Mock8082.simulate_audio_levels env st).1.audio_levels.master_left ∧
      inUnit (Mock8082.simulate_audio_levels env st).1.audio_levels.master_right ∧
      (Mock8082.simulate_audio_levels env st).1.audio_levels.master_left
        ≤ st.mixer.master_volume *
          max (max ((Mock8082.simulate_audio_levels env st).1.audio_levels.channel_1_left
                     * c1.volume)
               ((Mock8082.simulate_audio_levels env st).1.audio_levels.channel_2_left
                     * c2.volume))
              ((Mock8082.simulate_audio_levels env st).1.audio_levels.microphone)) := by
  have hml := mock_status_levels env st c1 c2 h
  have hsl := sim8082_levels env st c1 c2 h
  rw [hml, hsl]
  have Hl1 : inUnit (if c1.is_playing then env.u1 else 0) :=
    playLevel_inUnit _ hu1 hu1'
  have Hl1r : inUnit (if c1.is_playing then env.u2 else 0) :=
    playLevel_inUnit _ hu2 hu2'
  have Hl2 : inUnit (if c2.is_playing then env.u3 else 0) :=
    playLevel_inUnit _ hu3 hu3'
  have Hl2r : inUnit (if c2.is_playing then env.u4 else 0) :=
    playLevel_inUnit _ hu4 hu4'
  have Hcf' : inUnit (1 - st.mixer.crossfader) := inUnit_one_sub hcf
  have Hmic : inUnit
      (if st.microphone.enabled then env.umic * st.microphone.gain else 0) := by
    cases st.microphone.enabled
    · exact ⟨le_refl 0, zero_le_one⟩
    · exact inUnit_mul ⟨by linarith, by linarith⟩ hgn
  have HmockM : inUnit (max
      ((if c1.is_playing then env.u1 else 0) * c1.volume *
        (1 - st.mixer.crossfader) * st.mixer.master_volume)
      ((if c2.is_playing then env.u3 else 0) * c2.volume *
        st.mixer.crossfader * st.mixer.master_volume)) :=
    inUnit_max (inUnit_mul (inUnit_mul (inUnit_mul Hl1 hv1) Hcf') hmv)
      (inUnit_mul (inUnit_mul (inUnit_mul Hl2 hv2) hcf) hmv)
  have H82M : inUnit (max
      (max ((if c1.is_playing then env.u1 else 0) * c1.volume)
        ((if c2.is_playing then env.u3 else 0) * c2.volume))
      (if st.microphone.enabled then env.umic * st.microphone.gain else 0)
      * st.mixer.master_volume) :=
    inUnit_mul (inUnit_max (inUnit_max (inUnit_mul Hl1 hv1)
      (inUnit_mul Hl2 hv2)) Hmic) hmv
  exact ⟨⟨rfl, rfl, Hl1, Hl1r, Hl2, Hl2r, HmockM, HmockM, le_mv_max hmv.1⟩,
    ⟨rfl, rfl, Hl1, Hl1r, Hl2, Hl2r, Hmic, H82M, H82M,
      le_of_eq (mul_comm _ _)⟩⟩

/-- C2 witness: the amended statement instantiated at the initial state and
the fixed environment `envA`. -/
theorem C2_level_sim_amended_witness :
    (server_state 0).mixer.channels = [defCh1, defCh2] ∧
    inUnit defCh1.volume ∧
    (Mock.do_GET "/api/mixer/status".data envA (server_state 0)).1.audio_levels.master_left
      = claimedMasterLevel
          (Mock.do_GET "/api/mixer/status".data envA (server_state 0)).1.audio_levels.channel_1_left
          defCh1.volume
          (Mock.do_GET "/api/mixer/status".data envA (server_state 0)).1.audio_levels.channel_2_left
          defCh2.volume (server_state 0).mixer.crossfader
          (server_state 0).mixer.master_volume :=
  ⟨by rfl, by norm_num [inUnit, defCh1],
    ((C2_level_sim_amended envA (server_state 0) defCh1 defCh2 (by rfl)
      (by norm_num [inUnit, defCh1]) (by norm_num [inUnit, defCh2, defCh1])
      (by norm_num [inUnit, server_state]) (by norm_num [inUnit, server_state])
      (by norm_num [inUnit, server_state])
      (by norm_num [envA]) (by norm_num [envA]) (by norm_num [envA])
      (by norm_num [envA]) (by norm_num [envA]) (by norm_num [envA])
      (by norm_num [envA]) (by norm_num [envA]) (by norm_num [envA])
      (by norm_num [envA])).1).1⟩


lemma inv_mixer_mic {st st' : ServerState} (h1 : st'.mixer = st.mixer)
    (h2 : st'.microphone = st.microphone) (h : Inv st) : Inv st' := by
  unfold Inv at h ⊢
  rw [h1, h2]
  exact h

lemma mock_get_preserves (p : List Char) (env : GetEnv) (st : ServerState) :
    (Mock.do_GET p env st).1.mixer = st.mixer ∧
    (Mock.do_GET p env st).1.microphone = st.microphone := by
  simp only [Mock.do_GET]
  repeat' split
  all_goals exact ⟨rfl, rfl⟩

lemma mock8082_get_preserves (p : List Char) (env : GetEnv) (st : ServerState) :
    (Mock8082.do_GET p env st).1.mixer = st.mixer ∧
    (Mock8082.do_GET p env st).1.microphone = st.microphone := by
  simp only [Mock8082.do_GET, Mock8082.simulate_audio_levels]
  repeat' split
  all_goals exact ⟨rfl, rfl⟩

lemma channels_pair {st : ServerState}
    (h : st.mixer.channels.map Channel.id = [1, 2]) :
    ∃ a b, st.mixer.channels = [a, b] ∧ a.id = 1 ∧ b.id = 2 := by
  cases hc : st.mixer.channels with
  | nil => rw [hc] at h; simp at h
  | cons a t =>
    cases t with
    | nil => rw [hc] at h; simp at h
    | cons b u =>
      cases u with
      | nil =>
        rw [hc] at h
        simp at h
        exact ⟨a, b, rfl, h.1, h.2⟩
      | cons c v => rw [hc] at h; simp at h

lemma inv_set_channel {st : ServerState} (h : Inv st) (i : Nat)
    (ch ch' : Channel) (hch : st.mixer.channels[i]? = some ch)
    (hid : ch'.id = ch.id)
    (hvol : 0 ≤ ch.volume ∧ ch.volume ≤ 1 → 0 ≤ ch'.volume ∧ ch'.volume ≤ 1)
    (hpos : 0 ≤ ch.position → 0 ≤ ch'.position) :
    Inv { st with mixer := { st.mixer with
        channels := st.mixer.channels.set i ch' } } := by
  obtain ⟨h1, h2, h3, h4, h5, h6, hmap, hall⟩ := h
  obtain ⟨a, b, hab, hida, hidb⟩ := channels_pair hmap
  rw [hab] at hch
  have hmema : a ∈ st.mixer.channels := by rw [hab]; exact List.mem_cons_self a _
  have hmemb : b ∈ st.mixer.channels := by
    rw [hab]; exact List.mem_cons_of_mem a (List.mem_cons_self b _)
  have hba := hall a hmema
  have hbb := hall b hmemb
  refine ⟨h1, h2, h3, h4, h5, h6, ?_, ?_⟩
  · show (st.mixer.channels.set i ch').map Channel.id = [1, 2]
    rw [hab]
    match i, hch with
    | 0, hch =>
      simp at hch
      subst hch
      simp [hid, hida, hidb]
    | 1, hch =>
      simp at hch
      subst hch
      simp [hid, hida, hidb]
  · show ∀ c ∈ st.mixer.channels.set i ch', _
    intro c hc
    rw [hab] at hc
    match i, hch with
    | 0, hch =>
      simp at hch
      subst hch
      simp at hc
      rcases hc with rfl | rfl
      · exact ⟨(hvol ⟨hba.1, hba.2.1⟩).1, (hvol ⟨hba.1, hba.2.1⟩).2,
          hpos hba.2.2⟩
      · exact hbb
    | 1, hch =>
      simp at hch
      subst hch
      simp at hc
      rcases hc with rfl | rfl
      · exact hba
      · exact ⟨(hvol ⟨hbb.1, hbb.2.1⟩).1, (hvol ⟨hbb.1, hbb.2.1⟩).2,
          hpos hbb.2.2⟩

lemma clampUnit_nonneg (f : PyFloat) : 0 ≤ clampUnit f := by
  cases f
  · exact clamp01_nonneg _
  all_goals norm_num [clampUnit]

lemma clampUnit_le_one (f : PyFloat) : clampUnit f ≤ 1 := by
  cases f
  · exact clamp01_le_one _
  all_goals norm_num [clampUnit]

lemma inv_crossfader {st : ServerState} (h : Inv st) (f : PyFloat) :
    Inv { st with mixer := { st.mixer with crossfader := clampUnit f } } := by
  obtain ⟨_, _, h3, h4, h5, h6, h7, h8⟩ := h
  exact ⟨clampUnit_nonneg f, clampUnit_le_one f, h3, h4, h5, h6, h7, h8⟩

lemma inv_master_volume {st : ServerState} (h : Inv st) (f : PyFloat) :
    Inv { st with mixer := { st.mixer with master_volume := clampUnit f } } := by
  obtain ⟨h1, h2, _, _, h5, h6, h7, h8⟩ := h
  exact ⟨h1, h2, clampUnit_nonneg f, clampUnit_le_one f, h5, h6, h7, h8⟩

lemma inv_mic_enabled {st : ServerState} (h : Inv st) (b : Bool) :
    Inv { st with microphone := { st.microphone with enabled := b } } := by
  obtain ⟨h1, h2, h3, h4, h5, h6, h7, h8⟩ := h
  exact ⟨h1, h2, h3, h4, h5, h6, h7, h8⟩

lemma gain_unit (f : PyFloat) :
    0 ≤ clampHundred f / 100 ∧ clampHundred f / 100 ≤ 1 := by
  cases f with
  | finite q =>
      constructor
      · exact div_nonneg (clamp100_nonneg q) (by norm_num)
      · have := clamp100_le q
        simp only [clampHundred]
        linarith
  | posInf => norm_num [clampHundred]
  | negInf => norm_num [clampHundred]
  | nan => norm_num [clampHundred]

lemma inv_mic_start {st : ServerState} (h : Inv st) (f : PyFloat) :
    Inv { st with microphone := { st.microphone with
        enabled := true, gain := clampHundred f / 100, talkover := true } } := by
  obtain ⟨h1, h2, h3, h4, _, _, h7, h8⟩ := h
  exact ⟨h1, h2, h3, h4, (gain_unit f).1, (gain_unit f).2, h7, h8⟩

lemma inv_mic_stop {st : ServerState} (h : Inv st) :
    Inv { st with microphone := { st.microphone with
        enabled := false, talkover := false } } := by
  obtain ⟨h1, h2, h3, h4, h5, h6, h7, h8⟩ := h
  exact ⟨h1, h2, h3, h4, h5, h6, h7, h8⟩

lemma inv_mic_gain {st : ServerState} (h : Inv st) (f : PyFloat) :
    Inv { st with microphone := { st.microphone with
        gain := clampHundred f / 100 } } := by
  obtain ⟨h1, h2, h3, h4, _, _, h7, h8⟩ := h
  exact ⟨h1, h2, h3, h4, (gain_unit f).1, (gain_unit f).2, h7, h8⟩

lemma inv_handleVolume {st : ServerState} (h : Inv st)
    (parts : List (List Char)) (body : List (String × PyVal)) :
    Inv (Mock.handleChannelVolume parts body st).1 := by
  unfold Mock.handleChannelVolume
  cases parts[4]? with
  | none => exact h
  | some seg =>
    dsimp only
    cases pyInt? seg with
    | none => exact h
    | some n =>
      dsimp only
      split
      · cases pyFloat (dictGet body "value" (.num (7 / 10))) with
        | valErr => exact h
        | typeErr => exact h
        | ok v =>
          dsimp only
          cases hch : st.mixer.channels[(n - 1).toNat]? with
          | none => exact h
          | some ch =>
            exact inv_set_channel h _ _ _ hch rfl
              (fun _ => ⟨clampUnit_nonneg _, clampUnit_le_one _⟩) (fun hp => hp)
      · exact h



lemma inv_handleLoad {st : ServerState} (h : Inv st)
    (parts : List (List Char)) (body : List (String × PyVal)) (now : ℚ) :
    Inv (Mock.handleChannelLoad parts body now st).1 := by
  unfold Mock.handleChannelLoad
  cases parts[4]? with
  | none => exact h
  | some seg =>
    dsimp only
    cases pyInt? seg with
    | none => exact h
    | some n =>
      dsimp only
      split
      · cases hch : st.mixer.channels[(n - 1).toNat]? with
        | none => exact h
        | some ch =>
          exact inv_set_channel h _ _ _ hch rfl
            (fun hv => hv) (fun _ => le_refl 0)
      · exact h

lemma inv_handlePlayback {st : ServerState} (h : Inv st)
    (parts : List (List Char)) (body : List (String × PyVal)) :
    Inv (Mock.handleChannelPlayback parts body st).1 := by
  unfold Mock.handleChannelPlayback
  cases parts[4]? with
  | none => exact h
  | some seg =>
    dsimp only
    cases pyInt? seg with
    | none => exact h
    | some n =>
      dsimp only
      split
      · cases hch : st.mixer.channels[(n - 1).toNat]? with
        | none => exact h
        | some ch =>
          refine inv_set_channel h _ _ _ hch ?_ ?_ ?_
          · split_ifs <;> rfl
          · split_ifs <;> exact fun hv => hv
          · split_ifs <;> first | exact fun hp => hp | exact fun _ => le_refl 0
      · exact h

lemma inv_applyMock {st : ServerState} (h : Inv st) (r : Request) :
    Inv (applyMock st r) := by
  cases r with
  | get p env =>
    exact inv_mixer_mic (mock_get_preserves p env st).1
      (mock_get_preserves p env st).2 h
  | post p body now =>
    show Inv (Mock.do_POST p body now st).1
    unfold Mock.do_POST
    split
    · dsimp only
      cases pyFloat (dictGet body "value" (.num (1 / 2))) with
      | ok v => exact inv_crossfader h v
      | valErr => exact h
      | typeErr => exact h
    · split
      · exact inv_handleVolume h _ _
      · split
        · exact inv_handleLoad h _ _ _
        · split
          · exact inv_handlePlayback h _ _
          · split
            · exact inv_mic_enabled h _
            · split
              · dsimp only
                cases pyFloat (dictGet body "value" (.num (8 / 10))) with
                | ok v => exact inv_master_volume h v
                | valErr => exact h
                | typeErr => exact h
              · exact h

lemma inv_applyMock8082 {st : ServerState} (h : Inv st) (r : Request) :
    Inv (applyMock8082 st r) := by
  cases r with
  | get p env =>
    exact inv_mixer_mic (mock8082_get_preserves p env st).1
      (mock8082_get_preserves p env st).2 h
  | post p body now =>
    show Inv (Mock8082.do_POST p body st).1
    unfold Mock8082.do_POST
    split
    · dsimp only
      cases pyFloat (dictGet body "gain" (.num 75)) with
      | ok g => exact inv_mic_start h g
      | valErr => exact inv_mic_enabled h true
      | typeErr => exact inv_mic_enabled h true
    · split
      · exact inv_mic_stop h
      · split
        · dsimp only
          cases pyFloat (dictGet body "gain" (.num 75)) with
          | ok g => exact inv_mic_gain h g
          | valErr => exact h
          | typeErr => exact h
        · exact h

lemma inv_init (t0 : ℚ) : Inv (server_state t0) := by
  refine ⟨by norm_num [server_state], by norm_num [server_state],
    by norm_num [server_state], by norm_num [server_state],
    by norm_num [server_state], by norm_num [server_state],
    by simp [server_state], ?_⟩
  intro c hc
  simp [server_state] at hc
  rcases hc with rfl | rfl <;> norm_num

/-- C1: starting from the initial state, after every sequence of handler
invocations (GET or POST, any path, body and environment) on either
server, the crossfader, master volume, both channel volumes and the
microphone gain lie in [0, 1], the channels list still holds exactly the
two channels with ids 1 and 2, and every channel position is ≥ 0. -/
theorem C1_state_invariant (t0 : ℚ) :
    (∀ l : List Request, Inv (runMock (server_state t0) l)) ∧
    (∀ l : List Request, Inv (runMock8082 (server_state t0) l)) := by
  constructor <;> intro l
  · have hgen : ∀ st, Inv st → Inv (List.foldl applyMock st l) := by
      induction l with
      | nil => exact fun st hst => hst
      | cons r rs ih => exact fun st hst => ih _ (inv_applyMock hst r)
    exact hgen _ (inv_init t0)
  · have hgen : ∀ st, Inv st → Inv (List.foldl applyMock8082 st l) := by
      induction l with
      | nil => exact fun st hst => hst
      | cons r rs ih => exact fun st hst => ih _ (inv_applyMock8082 hst r)
    exact hgen _ (inv_init t0)


end OneStopRadio
